import Mathlib

/-!
Shallow embedding of `src/overlay_manager/core.py` and `src/overlay_manager/cli.py`
from the agent-overlay repository.

Modelling conventions:
* A filesystem path is represented by its list of components (`FsPath := List String`);
  `os.path.join(a, b)` with a single relative component `b` becomes `a ++ [b]`.
* The filesystem visible to the orchestrator is a set of existing directories plus a
  set of active mount points (`FS`); file contents are irrelevant to the orchestration
  code and are modelled separately for the overlay-semantics claim.
* Each outcome of an external subprocess (`fuse-overlayfs`, `fusermount`, `diff`) and
  each prerequisite probe (`shutil.which`, `/dev/fuse`) is an input supplied by the
  environment record `Env`.
* Every operation returns an `OpResult`: the Python return value or the exception
  raised (`Except PyError`), the filesystem after the operation (side effects
  performed before an exception remain, as in Python), and the ordered list of
  external-tool invocations the operation performed.
-/

/-- A filesystem path, as its list of components. -/
abbrev FsPath := List String

/-- Exceptions the Python code can raise. -/
inductive PyError where
  | valueError (msg : String)
  | runtimeError (msg : String)
  | calledProcessError (msg : String)
deriving DecidableEq, Repr

/-- The filesystem state the orchestrator observes and mutates:
existing directories and active mount points. -/
structure FS where
  dirs : List FsPath
  mounts : List FsPath
deriving DecidableEq, Repr

/-- External-tool invocations performed by an operation
(`fuse-overlayfs`, `fusermount [-u|-uz]`, `diff -Nur`). -/
inductive ExtCall where
  | mount (lowerdir upperdir workdir mountpoint : FsPath)
  | unmount (mountpoint : FsPath) (lazy : Bool)
  | diffCall (dir1 dir2 : FsPath)
deriving DecidableEq, Repr

/-- Environment oracle: availability of prerequisites and the outcome of each
external subprocess the operations may run. -/
structure Env where
  fuse_overlayfs_found : Bool
  dev_fuse_present : Bool
  mount_ok : Bool
  mount_stderr : String
  umount_ok : Bool
  umount_lazy_ok : Bool
  diff_exit : Nat
  diff_stdout : String
deriving DecidableEq, Repr

/-- The manager's configuration (`OverlayManager.__init__`): absolute base
directory and tasks root. -/
structure Config where
  base_dir : FsPath
  tasks_root : FsPath
deriving DecidableEq, Repr

/-- Result of one operation: Python return value or raised exception, the
filesystem afterwards, and the external calls made. -/
structure OpResult (α : Type) where
  res : Except PyError α
  fs : FS
  calls : List ExtCall

/-- All nonempty ancestors of a path, the path itself included; `os.makedirs`
creates exactly the missing ones. -/
def ancestors (p : FsPath) : List FsPath :=
  (List.range p.length).map (fun i => p.take (i + 1))

/-- Models `os.makedirs(p)`: the path and all its ancestors exist afterwards. -/
def FS.makedirs (fs : FS) (p : FsPath) : FS :=
  { fs with dirs := fs.dirs ++ ancestors p }

/-- Models `shutil.rmtree(p)`: removes `p` and everything below it. -/
def FS.rmtree (fs : FS) (p : FsPath) : FS :=
  { fs with dirs := fs.dirs.filter (fun q => !(p.isPrefixOf q)) }

/-- A successful overlay mount registers the mount point. -/
def FS.addMount (fs : FS) (p : FsPath) : FS :=
  { fs with mounts := p :: fs.mounts }

/-- A successful unmount removes the mount point. -/
def FS.removeMount (fs : FS) (p : FsPath) : FS :=
  { fs with mounts := fs.mounts.filter (fun q => q != p) }

/-- The fixed directory layout of a task
(`OverlayManager._get_task_paths`). -/
structure TaskPaths where
  root : FsPath
  upper : FsPath
  work : FsPath
  merged : FsPath
deriving DecidableEq, Repr

/-- Embeds `OverlayManager._get_task_paths`: `task_dir = tasks_root/<task_name>`,
with `upper`, `work` and `merged` below it. -/
def get_task_paths (cfg : Config) (task_name : String) : TaskPaths :=
  let task_dir := cfg.tasks_root ++ [task_name]
  { root := task_dir
    upper := task_dir ++ ["upper"]
    work := task_dir ++ ["work"]
    merged := task_dir ++ ["merged"] }

/-- Embeds `OverlayManager.check_prerequisites`: first the `fuse-overlayfs`
binary probe, then the `/dev/fuse` probe; each failure raises `RuntimeError`. -/
def check_prerequisites (env : Env) : Except PyError Unit :=
  if env.fuse_overlayfs_found then
    if env.dev_fuse_present then
      Except.ok ()
    else
      Except.error (PyError.runtimeError "/dev/fuse not found. The FUSE kernel module must be loaded.")
  else
    Except.error (PyError.runtimeError "fuse-overlayfs not found. It is required for rootless overlay support.")

/-- Embeds `OverlayManager.start_task`: prerequisites check, duplicate check,
creation of upper/work/merged, `fuse-overlayfs` invocation; on mount failure the
task root is removed and `RuntimeError` is raised. -/
def start_task (cfg : Config) (env : Env) (fs : FS) (task_name : String) : OpResult FsPath :=
  match check_prerequisites env with
  | Except.error e => ⟨Except.error e, fs, []⟩
  | Except.ok _ =>
    let paths := get_task_paths cfg task_name
    if paths.root ∈ fs.dirs then
      ⟨Except.error (PyError.valueError ("Task " ++ task_name ++ " already exists")), fs, []⟩
    else
      let fs1 := ((fs.makedirs paths.upper).makedirs paths.work).makedirs paths.merged
      let c := ExtCall.mount cfg.base_dir paths.upper paths.work paths.merged
      if env.mount_ok then
        ⟨Except.ok paths.merged, fs1.addMount paths.merged, [c]⟩
      else
        ⟨Except.error (PyError.runtimeError ("Failed to mount overlay: " ++ env.mount_stderr)),
          fs1.rmtree paths.root, [c]⟩

/-- Embeds `OverlayManager.abort_task`: missing task raises `ValueError`;
an existing mount point is unmounted via `fusermount -u`, retried with
`fusermount -uz` on failure; then the task root is removed and `True` returned.
If the lazy retry also fails, its `CalledProcessError` propagates. -/
def abort_task (cfg : Config) (env : Env) (fs : FS) (task_name : String) : OpResult Bool :=
  let paths := get_task_paths cfg task_name
  if paths.root ∉ fs.dirs then
    ⟨Except.error (PyError.valueError ("Task " ++ task_name ++ " not found.")), fs, []⟩
  else if paths.merged ∈ fs.dirs ∧ paths.merged ∈ fs.mounts then
    if env.umount_ok then
      ⟨Except.ok true, ((fs.removeMount paths.merged).rmtree paths.root),
        [ExtCall.unmount paths.merged false]⟩
    else if env.umount_lazy_ok then
      ⟨Except.ok true, ((fs.removeMount paths.merged).rmtree paths.root),
        [ExtCall.unmount paths.merged false, ExtCall.unmount paths.merged true]⟩
    else
      ⟨Except.error (PyError.calledProcessError "fusermount -uz failed"), fs,
        [ExtCall.unmount paths.merged false, ExtCall.unmount paths.merged true]⟩
  else
    ⟨Except.ok true, fs.rmtree paths.root, []⟩

/-- The immediate-child name of `q` below `root`, if any; used to model
`os.listdir(tasks_root)`. -/
def childName (root q : FsPath) : Option String :=
  if root.isPrefixOf q then
    match q.drop root.length with
    | [n] => some n
    | _ => none
  else none

/-- Embeds `OverlayManager.list_tasks`: empty when `tasks_root` does not exist,
otherwise the names directly below `tasks_root`. -/
def list_tasks (cfg : Config) (fs : FS) : List String :=
  if cfg.tasks_root ∈ fs.dirs then
    fs.dirs.filterMap (childName cfg.tasks_root)
  else []

/-- Embeds `OverlayManager.diff_task`: missing task raises `ValueError`;
otherwise it runs `diff -Nur base_dir merged` without checking the exit status
and returns the subprocess's stdout. -/
def diff_task (cfg : Config) (env : Env) (fs : FS) (task_name : String) : OpResult String :=
  let paths := get_task_paths cfg task_name
  if paths.root ∉ fs.dirs then
    ⟨Except.error (PyError.valueError ("Task " ++ task_name ++ " not found.")), fs, []⟩
  else
    ⟨Except.ok env.diff_stdout, fs, [ExtCall.diffCall cfg.base_dir paths.merged]⟩

/-- The attribute names (methods) defined on the `OverlayManager` class in
`src/overlay_manager/core.py`. Python attribute lookup on any other name
raises `AttributeError`. -/
def overlayManagerMethods : List String :=
  ["__init__", "_get_task_paths", "check_prerequisites", "start_task",
   "abort_task", "list_tasks", "diff_task", "get_bazel_hint"]

/-- The subcommands dispatched by `main` in `src/overlay_manager/cli.py`. -/
inductive CliCommand where
  | start (name : String)
  | abort (name : String)
  | diffCmd (name : String)
  | shell (name : String)
  | listCmd
deriving DecidableEq, Repr

/-- Embeds the dispatch and top-level exception handler of `main` in
`src/overlay_manager/cli.py`: any exception raised by the dispatched body is
caught and the process exits with code 1; otherwise it exits with code 0.
The `shell` branch calls `manager.enter_shell(args.name)`, which is an
attribute lookup on `OverlayManager`; when the name is not among the class's
methods, `AttributeError` is raised and caught by the handler. -/
def cli_main (cfg : Config) (env : Env) (fs : FS) : CliCommand → Nat × FS
  | CliCommand.start n =>
    match start_task cfg env fs n with
    | ⟨Except.ok _, fs1, _⟩ => (0, fs1)
    | ⟨Except.error _, fs1, _⟩ => (1, fs1)
  | CliCommand.abort n =>
    match abort_task cfg env fs n with
    | ⟨Except.ok _, fs1, _⟩ => (0, fs1)
    | ⟨Except.error _, fs1, _⟩ => (1, fs1)
  | CliCommand.diffCmd n =>
    match diff_task cfg env fs n with
    | ⟨Except.ok _, fs1, _⟩ => (0, fs1)
    | ⟨Except.error _, fs1, _⟩ => (1, fs1)
  | CliCommand.shell _ =>
    if "enter_shell" ∈ overlayManagerMethods then
      (0, fs)
    else
      (1, fs)
  | CliCommand.listCmd => (0, fs)

/-- Modelled from the spec: the copy-on-write merged-view semantics that the
external `fuse-overlayfs` tool provides (this tool is not part of `src/`).
`base` maps relative paths to the contents of the shared base directory; each
started task owns an upper layer recording its copied-up writes. -/
structure OverlaySystem where
  base : List (String × String)
  uppers : List (String × List (String × String))

/-- Modelled from the spec: the upper (copy-on-write) layer of one task. -/
def upperOf (s : OverlaySystem) (t : String) : List (String × String) :=
  (List.lookup t s.uppers).getD []

/-- Modelled from the spec: reading a path in a task's merged view returns the
task's copied-up version when one exists, and the base contents otherwise. -/
def mergedRead (s : OverlaySystem) (t : String) (p : String) : Option String :=
  match List.lookup p (upperOf s t) with
  | some v => some v
  | none => List.lookup p s.base

/-- Modelled from the spec: a write through a task's merged view is copied up
into that task's upper layer only; the base is never written. -/
def overlayWrite (s : OverlaySystem) (t p v : String) : OverlaySystem :=
  { s with uppers := (t, (p, v) :: upperOf s t) :: s.uppers }

/-- A sequence of writes `(path, contents)` performed through one task's
merged view. -/
def applyWrites (s : OverlaySystem) (t : String) (ws : List (String × String)) : OverlaySystem :=
  ws.foldl (fun acc w => overlayWrite acc t w.1 w.2) s

/-! ### Helper lemmas about the filesystem model -/

theorem mem_ancestors {q p : FsPath} : q ∈ ancestors p ↔ q ≠ [] ∧ q <+: p := by
  unfold ancestors
  simp only [List.mem_map, List.mem_range]
  constructor
  · rintro ⟨i, hi, rfl⟩
    refine ⟨?_, List.take_prefix _ _⟩
    have hlen : (p.take (i + 1)).length = i + 1 := by
      rw [List.length_take]; omega
    intro h
    rw [h] at hlen
    simp at hlen
  · rintro ⟨hne, hpre⟩
    have h2 : 0 < q.length := List.length_pos.mpr hne
    have h1 := hpre.length_le
    refine ⟨q.length - 1, by omega, ?_⟩
    have hq := List.prefix_iff_eq_take.mp hpre
    have hlen : q.length - 1 + 1 = q.length := by omega
    rw [hlen]
    exact hq.symm

theorem self_mem_ancestors {p : FsPath} (h : p ≠ []) : p ∈ ancestors p :=
  mem_ancestors.mpr ⟨h, List.prefix_refl p⟩

theorem mem_makedirs {fs : FS} {p q : FsPath} :
    q ∈ (fs.makedirs p).dirs ↔ q ∈ fs.dirs ∨ q ∈ ancestors p := by
  simp [FS.makedirs]

theorem isPrefixOf_false_iff {p q : FsPath} : p.isPrefixOf q = false ↔ ¬p <+: q := by
  rw [← Bool.not_eq_true]
  simp

theorem mem_rmtree {fs : FS} {p q : FsPath} :
    q ∈ (fs.rmtree p).dirs ↔ q ∈ fs.dirs ∧ ¬p <+: q := by
  simp [FS.rmtree, isPrefixOf_false_iff]

theorem childName_eq_some {root q : FsPath} {n : String} :
    childName root q = some n ↔ q = root ++ [n] := by
  constructor
  · intro h
    unfold childName at h
    split at h
    · next hpre =>
      have hp : root <+: q := by simpa using hpre
      obtain ⟨t, rfl⟩ := hp
      rw [List.drop_left] at h
      match t, h with
      | [m], h =>
        simp only [Option.some.injEq] at h
        rw [h]
    · exact absurd h (by simp)
  · rintro rfl
    unfold childName
    rw [if_pos (by simp)]
    rw [List.drop_left]

theorem not_prefix_of_length_lt {p q : FsPath} (h : q.length < p.length) : ¬p <+: q :=
  fun hp => absurd hp.length_le (by omega)

theorem prefix_same_length_eq {p q L : FsPath} (hp : p <+: L) (hq : q <+: L)
    (h : p.length = q.length) : p = q := by
  rw [List.prefix_iff_eq_take.mp hp, List.prefix_iff_eq_take.mp hq, h]

theorem child_prefix_eq {t rest : FsPath} {m name : String}
    (h : t ++ [m] <+: t ++ name :: rest) : m = name := by
  rw [List.prefix_append_right_inj] at h
  exact (List.cons_prefix_cons.mp h).1

theorem mem_list_tasks {cfg : Config} {fs : FS} {n : String} :
    n ∈ list_tasks cfg fs ↔ cfg.tasks_root ∈ fs.dirs ∧ cfg.tasks_root ++ [n] ∈ fs.dirs := by
  unfold list_tasks
  split
  · next hroot =>
    simp only [List.mem_filterMap]
    constructor
    · rintro ⟨q, hq, hcn⟩
      exact ⟨hroot, childName_eq_some.mp hcn ▸ hq⟩
    · rintro ⟨-, hmem⟩
      exact ⟨cfg.tasks_root ++ [n], hmem, childName_eq_some.mpr rfl⟩
  · next hroot =>
    simp only [List.not_mem_nil, false_iff]
    rintro ⟨h, -⟩
    exact hroot h

/-! ### Unfolding lemmas for the operations -/

theorem start_task_ok_eq {cfg : Config} {env : Env} {fs : FS} {task_name : String}
    (h1 : env.fuse_overlayfs_found = true) (h2 : env.dev_fuse_present = true)
    (h3 : env.mount_ok = true)
    (h4 : (get_task_paths cfg task_name).root ∉ fs.dirs) :
    start_task cfg env fs task_name =
      ⟨Except.ok (get_task_paths cfg task_name).merged,
        ((((fs.makedirs (get_task_paths cfg task_name).upper).makedirs
            (get_task_paths cfg task_name).work).makedirs
            (get_task_paths cfg task_name).merged).addMount
            (get_task_paths cfg task_name).merged),
        [ExtCall.mount cfg.base_dir (get_task_paths cfg task_name).upper
          (get_task_paths cfg task_name).work (get_task_paths cfg task_name).merged]⟩ := by
  simp [start_task, check_prerequisites, h1, h2, h3, h4]

theorem start_task_mount_fail_eq {cfg : Config} {env : Env} {fs : FS} {task_name : String}
    (h1 : env.fuse_overlayfs_found = true) (h2 : env.dev_fuse_present = true)
    (h3 : env.mount_ok = false)
    (h4 : (get_task_paths cfg task_name).root ∉ fs.dirs) :
    start_task cfg env fs task_name =
      ⟨Except.error (PyError.runtimeError ("Failed to mount overlay: " ++ env.mount_stderr)),
        ((((fs.makedirs (get_task_paths cfg task_name).upper).makedirs
            (get_task_paths cfg task_name).work).makedirs
            (get_task_paths cfg task_name).merged).rmtree
            (get_task_paths cfg task_name).root),
        [ExtCall.mount cfg.base_dir (get_task_paths cfg task_name).upper
          (get_task_paths cfg task_name).work (get_task_paths cfg task_name).merged]⟩ := by
  simp [start_task, check_prerequisites, h1, h2, h3, h4]

theorem abort_task_missing_eq {cfg : Config} {env : Env} {fs : FS} {task_name : String}
    (h : (get_task_paths cfg task_name).root ∉ fs.dirs) :
    abort_task cfg env fs task_name =
      ⟨Except.error (PyError.valueError ("Task " ++ task_name ++ " not found.")), fs, []⟩ := by
  simp [abort_task, h]

theorem abort_task_unmounted_eq {cfg : Config} {env : Env} {fs : FS} {task_name : String}
    (h : (get_task_paths cfg task_name).root ∈ fs.dirs)
    (hm : ¬((get_task_paths cfg task_name).merged ∈ fs.dirs ∧
            (get_task_paths cfg task_name).merged ∈ fs.mounts)) :
    abort_task cfg env fs task_name =
      ⟨Except.ok true, fs.rmtree (get_task_paths cfg task_name).root, []⟩ := by
  simp only [abort_task]
  rw [if_neg (by simp [h]), if_neg hm]

theorem abort_task_umount_ok_eq {cfg : Config} {env : Env} {fs : FS} {task_name : String}
    (h : (get_task_paths cfg task_name).root ∈ fs.dirs)
    (hm : (get_task_paths cfg task_name).merged ∈ fs.dirs ∧
          (get_task_paths cfg task_name).merged ∈ fs.mounts)
    (hu : env.umount_ok = true) :
    abort_task cfg env fs task_name =
      ⟨Except.ok true,
        ((fs.removeMount (get_task_paths cfg task_name).merged).rmtree
          (get_task_paths cfg task_name).root),
        [ExtCall.unmount (get_task_paths cfg task_name).merged false]⟩ := by
  simp only [abort_task]
  rw [if_neg (by simp [h]), if_pos hm, if_pos (by simp [hu])]

theorem abort_task_umount_lazy_eq {cfg : Config} {env : Env} {fs : FS} {task_name : String}
    (h : (get_task_paths cfg task_name).root ∈ fs.dirs)
    (hm : (get_task_paths cfg task_name).merged ∈ fs.dirs ∧
          (get_task_paths cfg task_name).merged ∈ fs.mounts)
    (hu : env.umount_ok = false) (hl : env.umount_lazy_ok = true) :
    abort_task cfg env fs task_name =
      ⟨Except.ok true,
        ((fs.removeMount (get_task_paths cfg task_name).merged).rmtree
          (get_task_paths cfg task_name).root),
        [ExtCall.unmount (get_task_paths cfg task_name).merged false,
         ExtCall.unmount (get_task_paths cfg task_name).merged true]⟩ := by
  simp only [abort_task]
  rw [if_neg (by simp [h]), if_pos hm, if_neg (by simp [hu]), if_pos (by simp [hl])]

theorem abort_task_umount_fail_eq {cfg : Config} {env : Env} {fs : FS} {task_name : String}
    (h : (get_task_paths cfg task_name).root ∈ fs.dirs)
    (hm : (get_task_paths cfg task_name).merged ∈ fs.dirs ∧
          (get_task_paths cfg task_name).merged ∈ fs.mounts)
    (hu : env.umount_ok = false) (hl : env.umount_lazy_ok = false) :
    abort_task cfg env fs task_name =
      ⟨Except.error (PyError.calledProcessError "fusermount -uz failed"), fs,
        [ExtCall.unmount (get_task_paths cfg task_name).merged false,
         ExtCall.unmount (get_task_paths cfg task_name).merged true]⟩ := by
  simp only [abort_task]
  rw [if_neg (by simp [h]), if_pos hm, if_neg (by simp [hu]), if_neg (by simp [hl])]

theorem diff_task_ok_eq {cfg : Config} {env : Env} {fs : FS} {task_name : String}
    (h : (get_task_paths cfg task_name).root ∈ fs.dirs) :
    diff_task cfg env fs task_name =
      ⟨Except.ok env.diff_stdout, fs,
        [ExtCall.diffCall cfg.base_dir (get_task_paths cfg task_name).merged]⟩ := by
  simp [diff_task, h]

/-! ### Ancestor facts about the task layout -/

theorem root_mem_sub_ancestors {r : FsPath} {x : String} (h : r ≠ []) :
    r ∈ ancestors (r ++ [x]) :=
  mem_ancestors.mpr ⟨h, List.prefix_append _ _⟩

theorem sub_mem_sub_ancestors {r : FsPath} {x : String} : r ++ [x] ∈ ancestors (r ++ [x]) :=
  self_mem_ancestors (by simp)

theorem tr_mem_sub_ancestors {t : FsPath} {n x : String} (h : t ≠ []) :
    t ∈ ancestors (t ++ [n] ++ [x]) :=
  mem_ancestors.mpr ⟨h, ⟨[n, x], by simp⟩⟩

theorem child_mem_sub_ancestors_eq {t : FsPath} {m name x : String}
    (h : t ++ [m] ∈ ancestors (t ++ [name] ++ [x])) : m = name := by
  have hp := (mem_ancestors.mp h).2
  have hassoc : t ++ [name] ++ [x] = t ++ name :: [x] := by simp
  rw [hassoc] at hp
  exact child_prefix_eq hp

theorem root_not_prefix_sibling {t : FsPath} {m name : String} (hne : m ≠ name) :
    ¬t ++ [name] <+: t ++ [m] := by
  intro hp
  have heq := hp.eq_of_length (by simp)
  simp only [List.append_cancel_left_eq, List.cons.injEq, and_true] at heq
  exact hne heq.symm

theorem root_not_prefix_tasks_root {t : FsPath} {name : String} : ¬t ++ [name] <+: t :=
  not_prefix_of_length_lt (by simp)

/-! ### Claim theorems -/

/-- Claim C6: the path layout is a fixed deterministic function of `tasks_root`
and the task name: `root = tasks_root/<task_name>`, `upper = root/upper`,
`work = root/work`, `merged = root/merged`, and two computations of the layout
for the same task name on the same manager yield identical paths. -/
theorem task_path_layout (cfg : Config) (task_name : String) :
    get_task_paths cfg task_name =
      { root := cfg.tasks_root ++ [task_name]
        upper := cfg.tasks_root ++ [task_name] ++ ["upper"]
        work := cfg.tasks_root ++ [task_name] ++ ["work"]
        merged := cfg.tasks_root ++ [task_name] ++ ["merged"] } ∧
    get_task_paths cfg task_name = get_task_paths cfg task_name :=
  ⟨rfl, rfl⟩

/-- Claim C8: for every task name, the CLI `shell` command exits with code 1:
it calls `OverlayManager.enter_shell`, a method the class does not define, so
the `AttributeError` is caught by the top-level handler and reported. -/
theorem cli_shell_always_fails (cfg : Config) (env : Env) (fs : FS) (task_name : String) :
    (cli_main cfg env fs (CliCommand.shell task_name)).1 = 1 ∧
    "enter_shell" ∉ overlayManagerMethods :=
  ⟨rfl, by decide⟩

/-- Claim C10: when the task root already exists, `start_task` raises
`ValueError` and leaves the filesystem unchanged, creating nothing, removing
nothing and invoking no mount subprocess; and the prerequisite check runs
before the duplicate check, so a missing prerequisite yields `RuntimeError`
even for an existing root. -/
theorem start_task_duplicate_rejected (cfg : Config) (env : Env) (fs : FS) (task_name : String) :
    (env.fuse_overlayfs_found = true → env.dev_fuse_present = true →
      (get_task_paths cfg task_name).root ∈ fs.dirs →
      start_task cfg env fs task_name =
        ⟨Except.error (PyError.valueError ("Task " ++ task_name ++ " already exists")), fs, []⟩) ∧
    (env.fuse_overlayfs_found = false →
      start_task cfg env fs task_name =
        ⟨Except.error (PyError.runtimeError
          "fuse-overlayfs not found. It is required for rootless overlay support."), fs, []⟩) ∧
    (env.fuse_overlayfs_found = true → env.dev_fuse_present = false →
      start_task cfg env fs task_name =
        ⟨Except.error (PyError.runtimeError
          "/dev/fuse not found. The FUSE kernel module must be loaded."), fs, []⟩) := by
  refine ⟨fun h1 h2 h3 => ?_, fun h1 => ?_, fun h1 h2 => ?_⟩
  · simp [start_task, check_prerequisites, h1, h2, h3]
  · simp [start_task, check_prerequisites, h1]
  · simp [start_task, check_prerequisites, h1, h2]

/-- Closed witness for C10: a duplicate start on a concrete filesystem is
rejected with `ValueError` and changes nothing. -/
theorem start_task_duplicate_rejected_witness :
    start_task ⟨["base"], ["tasks"]⟩ ⟨true, true, true, "", true, true, 0, ""⟩
        ⟨[["tasks"], ["tasks", "t"]], []⟩ "t" =
      ⟨Except.error (PyError.valueError ("Task " ++ "t" ++ " already exists")),
        ⟨[["tasks"], ["tasks", "t"]], []⟩, []⟩ :=
  (start_task_duplicate_rejected ⟨["base"], ["tasks"]⟩
    ⟨true, true, true, "", true, true, 0, ""⟩
    ⟨[["tasks"], ["tasks", "t"]], []⟩ "t").1 rfl rfl (by decide)

/-- Claim C4: for an existing task, `diff_task` invokes the recursive diff
utility on `base_dir` versus the task's merged directory and returns the
utility's stdout verbatim, with no parsing, filtering or merging. -/
theorem diff_task_delegates (cfg : Config) (env : Env) (fs : FS) (task_name : String)
    (h : (get_task_paths cfg task_name).root ∈ fs.dirs) :
    (diff_task cfg env fs task_name).res = Except.ok env.diff_stdout ∧
    (diff_task cfg env fs task_name).calls =
      [ExtCall.diffCall cfg.base_dir (get_task_paths cfg task_name).merged] ∧
    (diff_task cfg env fs task_name).fs = fs := by
  rw [diff_task_ok_eq h]
  exact ⟨rfl, rfl, rfl⟩

/-- Closed witness for C4 at a concrete filesystem and diff output. -/
theorem diff_task_delegates_witness :
    (diff_task ⟨["base"], ["tasks"]⟩ ⟨true, true, true, "", true, true, 0, "DIFF"⟩
        ⟨[["tasks"], ["tasks", "t"]], []⟩ "t").res = Except.ok "DIFF" :=
  (diff_task_delegates ⟨["base"], ["tasks"]⟩ ⟨true, true, true, "", true, true, 0, "DIFF"⟩
    ⟨[["tasks"], ["tasks", "t"]], []⟩ "t" (by decide)).1

/-- Claim C3: for a task whose root does not yet exist and with the external
tools available, `start_task` creates the upper, work and merged directories
under `tasks_root/<task_name>`, invokes the overlay-mounting tool with
`lowerdir = base_dir`, `upperdir` = the task's upper directory, `workdir` = the
task's work directory and the merged directory as mount point, and returns the
path of the merged directory. -/
theorem start_task_success_spec (cfg : Config) (env : Env) (fs : FS) (task_name : String)
    (paths : TaskPaths) (hp : paths = get_task_paths cfg task_name)
    (h1 : env.fuse_overlayfs_found = true) (h2 : env.dev_fuse_present = true)
    (h3 : env.mount_ok = true)
    (h4 : paths.root ∉ fs.dirs) :
    (start_task cfg env fs task_name).res = Except.ok paths.merged ∧
    (start_task cfg env fs task_name).calls =
      [ExtCall.mount cfg.base_dir paths.upper paths.work paths.merged] ∧
    paths.root ∈ (start_task cfg env fs task_name).fs.dirs ∧
    paths.upper ∈ (start_task cfg env fs task_name).fs.dirs ∧
    paths.work ∈ (start_task cfg env fs task_name).fs.dirs ∧
    paths.merged ∈ (start_task cfg env fs task_name).fs.dirs ∧
    paths.merged ∈ (start_task cfg env fs task_name).fs.mounts := by
  subst hp
  rw [start_task_ok_eq h1 h2 h3 h4]
  refine ⟨rfl, rfl, ?_, ?_, ?_, ?_, ?_⟩
  · simp only [FS.addMount, mem_makedirs, get_task_paths]
    exact Or.inl (Or.inl (Or.inr (root_mem_sub_ancestors (by simp))))
  · simp only [FS.addMount, mem_makedirs, get_task_paths]
    exact Or.inl (Or.inl (Or.inr sub_mem_sub_ancestors))
  · simp only [FS.addMount, mem_makedirs, get_task_paths]
    exact Or.inl (Or.inr sub_mem_sub_ancestors)
  · simp only [FS.addMount, mem_makedirs, get_task_paths]
    exact Or.inr sub_mem_sub_ancestors
  · simp [FS.addMount]

/-- Closed witness for C3: starting a fresh task on a concrete filesystem
succeeds and returns the merged path. -/
theorem start_task_success_spec_witness :
    (start_task ⟨["base"], ["tasks"]⟩ ⟨true, true, true, "", true, true, 0, ""⟩
        ⟨[["tasks"]], []⟩ "t").res =
      Except.ok (get_task_paths ⟨["base"], ["tasks"]⟩ "t").merged :=
  (start_task_success_spec ⟨["base"], ["tasks"]⟩ ⟨true, true, true, "", true, true, 0, ""⟩
    ⟨[["tasks"]], []⟩ "t" (get_task_paths ⟨["base"], ["tasks"]⟩ "t")
    rfl rfl rfl rfl (by decide)).1

/-- Claim C9: `start_task` is atomic with respect to mount failure: when the
root did not previously exist and the mount subprocess fails, the task root
(with its upper, work and merged directories) is removed before `RuntimeError`
is raised, the task does not appear in `list_tasks`, and a repeated
`start_task` with the same name is not rejected as a duplicate. -/
theorem start_task_mount_failure_atomic (cfg : Config) (env : Env) (fs : FS) (task_name : String)
    (paths : TaskPaths) (hp : paths = get_task_paths cfg task_name)
    (h1 : env.fuse_overlayfs_found = true) (h2 : env.dev_fuse_present = true)
    (h3 : env.mount_ok = false)
    (h4 : paths.root ∉ fs.dirs) :
    (start_task cfg env fs task_name).res =
      Except.error (PyError.runtimeError ("Failed to mount overlay: " ++ env.mount_stderr)) ∧
    paths.root ∉ (start_task cfg env fs task_name).fs.dirs ∧
    paths.upper ∉ (start_task cfg env fs task_name).fs.dirs ∧
    paths.work ∉ (start_task cfg env fs task_name).fs.dirs ∧
    paths.merged ∉ (start_task cfg env fs task_name).fs.dirs ∧
    task_name ∉ list_tasks cfg (start_task cfg env fs task_name).fs ∧
    ∀ m : String,
      (start_task cfg env (start_task cfg env fs task_name).fs task_name).res ≠
        Except.error (PyError.valueError m) := by
  subst hp
  have hroot_out :
      (get_task_paths cfg task_name).root ∉ (start_task cfg env fs task_name).fs.dirs := by
    rw [start_task_mount_fail_eq h1 h2 h3 h4]
    simp [mem_rmtree, List.prefix_refl]
  refine ⟨?_, hroot_out, ?_, ?_, ?_, ?_, ?_⟩
  · rw [start_task_mount_fail_eq h1 h2 h3 h4]
  · rw [start_task_mount_fail_eq h1 h2 h3 h4]
    simp only [mem_rmtree, not_and, not_not, get_task_paths]
    intro _
    exact List.prefix_append _ _
  · rw [start_task_mount_fail_eq h1 h2 h3 h4]
    simp only [mem_rmtree, not_and, not_not, get_task_paths]
    intro _
    exact List.prefix_append _ _
  · rw [start_task_mount_fail_eq h1 h2 h3 h4]
    simp only [mem_rmtree, not_and, not_not, get_task_paths]
    intro _
    exact List.prefix_append _ _
  · rw [mem_list_tasks]
    rintro ⟨-, hmem⟩
    apply hroot_out
    have hr : (get_task_paths cfg task_name).root = cfg.tasks_root ++ [task_name] := by
      simp [get_task_paths]
    rw [hr]
    exact hmem
  · intro m
    rw [start_task_mount_fail_eq h1 h2 h3 hroot_out]
    simp

/-- Closed witness for C9: a failed mount on a concrete filesystem raises
`RuntimeError` carrying the subprocess stderr. -/
theorem start_task_mount_failure_atomic_witness :
    (start_task ⟨["base"], ["tasks"]⟩ ⟨true, true, false, "boom", true, true, 0, ""⟩
        ⟨[["tasks"]], []⟩ "t").res =
      Except.error (PyError.runtimeError ("Failed to mount overlay: " ++ "boom")) :=
  (start_task_mount_failure_atomic ⟨["base"], ["tasks"]⟩
    ⟨true, true, false, "boom", true, true, 0, ""⟩ ⟨[["tasks"]], []⟩ "t"
    (get_task_paths ⟨["base"], ["tasks"]⟩ "t") rfl rfl rfl rfl (by decide)).1

/-- Claim C2 counterexample: a failing subprocess does not always lead to a
raised error. With the diff utility exiting with a nonzero (failing) status,
`diff_task` raises nothing and returns the stdout anyway; and with
`fusermount -u` failing but the lazy retry succeeding, `abort_task` returns
`True` instead of raising — the retry itself being a recovery action beyond
propagating the error. -/
theorem subprocess_failure_propagation_cex :
    (⟨true, true, true, "", true, true, 2, "out"⟩ : Env).diff_exit ≠ 0 ∧
    (diff_task ⟨["base"], ["tasks"]⟩ ⟨true, true, true, "", true, true, 2, "out"⟩
        ⟨[["tasks"], ["tasks", "t"]], []⟩ "t").res = Except.ok "out" ∧
    (⟨true, true, true, "", false, true, 0, ""⟩ : Env).umount_ok = false ∧
    (abort_task ⟨["base"], ["tasks"]⟩ ⟨true, true, true, "", false, true, 0, ""⟩
        ⟨[["tasks"], ["tasks", "t"], ["tasks", "t", "merged"]],
          [["tasks", "t", "merged"]]⟩ "t").res = Except.ok true :=
  ⟨by decide, rfl, rfl, rfl⟩

/-- Claim C2 (amended): when `start_task`'s mount subprocess fails it raises
`RuntimeError` derived from the subprocess stderr (after removing the created
task root); when `abort_task`'s unmount subprocess fails it retries with a lazy
unmount, propagating the subprocess error only if the retry also fails; and
`diff_task` never inspects the diff utility's exit status, returning its stdout
unconditionally. -/
theorem subprocess_failure_handling (cfg : Config) (env : Env) (fs : FS) (task_name : String) :
    (env.fuse_overlayfs_found = true → env.dev_fuse_present = true → env.mount_ok = false →
      (get_task_paths cfg task_name).root ∉ fs.dirs →
      ((start_task cfg env fs task_name).res =
        Except.error (PyError.runtimeError ("Failed to mount overlay: " ++ env.mount_stderr)) ∧
       (get_task_paths cfg task_name).root ∉ (start_task cfg env fs task_name).fs.dirs)) ∧
    ((get_task_paths cfg task_name).root ∈ fs.dirs →
      (get_task_paths cfg task_name).merged ∈ fs.dirs →
      (get_task_paths cfg task_name).merged ∈ fs.mounts →
      env.umount_ok = false →
      ((env.umount_lazy_ok = true →
          (abort_task cfg env fs task_name).res = Except.ok true) ∧
        (env.umount_lazy_ok = false →
          (abort_task cfg env fs task_name).res =
            Except.error (PyError.calledProcessError "fusermount -uz failed")))) ∧
    ((get_task_paths cfg task_name).root ∈ fs.dirs →
      (diff_task cfg env fs task_name).res = Except.ok env.diff_stdout) := by
  refine ⟨fun h1 h2 h3 h4 => ⟨?_, ?_⟩, fun hr hm1 hm2 hu => ⟨fun hl => ?_, fun hl => ?_⟩,
    fun hr => ?_⟩
  · rw [start_task_mount_fail_eq h1 h2 h3 h4]
  · rw [start_task_mount_fail_eq h1 h2 h3 h4]
    simp [mem_rmtree, List.prefix_refl]
  · rw [abort_task_umount_lazy_eq hr ⟨hm1, hm2⟩ hu hl]
  · rw [abort_task_umount_fail_eq hr ⟨hm1, hm2⟩ hu hl]
  · rw [diff_task_ok_eq hr]

/-- Closed witness for the amended C2: on a concrete state a failed mount
raises `RuntimeError` with the task root removed, and `diff_task` returns the
subprocess stdout even with a failing exit status recorded. -/
theorem subprocess_failure_handling_witness :
    ((start_task ⟨["base"], ["tasks"]⟩ ⟨true, true, false, "boom2", true, true, 0, ""⟩
        ⟨[["tasks"]], []⟩ "t").res =
      Except.error (PyError.runtimeError ("Failed to mount overlay: " ++ "boom2")) ∧
     (get_task_paths ⟨["base"], ["tasks"]⟩ "t").root ∉
       (start_task ⟨["base"], ["tasks"]⟩ ⟨true, true, false, "boom2", true, true, 0, ""⟩
         ⟨[["tasks"]], []⟩ "t").fs.dirs) ∧
    (diff_task ⟨["base"], ["tasks"]⟩ ⟨true, true, true, "", false, true, 2, "D"⟩
        ⟨[["tasks"], ["tasks", "t"]], []⟩ "t").res =
      Except.ok (⟨true, true, true, "", false, true, 2, "D"⟩ : Env).diff_stdout :=
  ⟨(subprocess_failure_handling ⟨["base"], ["tasks"]⟩
      ⟨true, true, false, "boom2", true, true, 0, ""⟩ ⟨[["tasks"]], []⟩ "t").1
      rfl rfl rfl (by decide),
    (subprocess_failure_handling ⟨["base"], ["tasks"]⟩ ⟨true, true, true, "", false, true, 2, "D"⟩
      ⟨[["tasks"], ["tasks", "t"]], []⟩ "t").2.2 (by decide)⟩

/-- Claim C5 counterexample: on a concrete state whose task root exists and
whose merged directory is a mount point, with both unmount attempts failing,
`abort_task` raises `CalledProcessError` — it neither removes the task root
nor returns `True`, refuting the claim's unconditional "otherwise" branch. -/
theorem abort_unmount_failure_cex :
    (["tasks", "t"] : FsPath) ∈
      (⟨[["tasks"], ["tasks", "t"], ["tasks", "t", "merged"]],
        [["tasks", "t", "merged"]]⟩ : FS).dirs ∧
    (abort_task ⟨["base"], ["tasks"]⟩ ⟨true, true, true, "", false, false, 0, ""⟩
        ⟨[["tasks"], ["tasks", "t"], ["tasks", "t", "merged"]],
          [["tasks", "t", "merged"]]⟩ "t").res =
      Except.error (PyError.calledProcessError "fusermount -uz failed") ∧
    (["tasks", "t"] : FsPath) ∈
      (abort_task ⟨["base"], ["tasks"]⟩ ⟨true, true, true, "", false, false, 0, ""⟩
        ⟨[["tasks"], ["tasks", "t"], ["tasks", "t", "merged"]],
          [["tasks", "t", "merged"]]⟩ "t").fs.dirs :=
  ⟨by decide, rfl, by decide⟩

/-- Claim C5 (amended): `abort_task` raises `ValueError` exactly when the task
root does not exist; otherwise, when the merged directory is an existing mount
point it invokes the unmount utility, retrying with a lazy unmount on failure;
whenever no unmount is needed or an unmount attempt succeeds it removes the
entire task root tree and returns `True`; and when both unmount attempts fail
the subprocess error propagates and the tree is not removed. -/
theorem abort_task_spec (cfg : Config) (env : Env) (fs : FS) (task_name : String)
    (paths : TaskPaths) (hp : paths = get_task_paths cfg task_name) :
    (paths.root ∉ fs.dirs →
      abort_task cfg env fs task_name =
        ⟨Except.error (PyError.valueError ("Task " ++ task_name ++ " not found.")), fs, []⟩) ∧
    (paths.root ∈ fs.dirs → ¬(paths.merged ∈ fs.dirs ∧ paths.merged ∈ fs.mounts) →
      abort_task cfg env fs task_name = ⟨Except.ok true, fs.rmtree paths.root, []⟩) ∧
    (paths.root ∈ fs.dirs → paths.merged ∈ fs.dirs → paths.merged ∈ fs.mounts →
      env.umount_ok = true →
      abort_task cfg env fs task_name =
        ⟨Except.ok true, (fs.removeMount paths.merged).rmtree paths.root,
          [ExtCall.unmount paths.merged false]⟩) ∧
    (paths.root ∈ fs.dirs → paths.merged ∈ fs.dirs → paths.merged ∈ fs.mounts →
      env.umount_ok = false → env.umount_lazy_ok = true →
      abort_task cfg env fs task_name =
        ⟨Except.ok true, (fs.removeMount paths.merged).rmtree paths.root,
          [ExtCall.unmount paths.merged false, ExtCall.unmount paths.merged true]⟩) ∧
    (paths.root ∈ fs.dirs → paths.merged ∈ fs.dirs → paths.merged ∈ fs.mounts →
      env.umount_ok = false → env.umount_lazy_ok = false →
      abort_task cfg env fs task_name =
        ⟨Except.error (PyError.calledProcessError "fusermount -uz failed"), fs,
          [ExtCall.unmount paths.merged false, ExtCall.unmount paths.merged true]⟩) := by
  subst hp
  refine ⟨fun h => abort_task_missing_eq h,
    fun h hm => abort_task_unmounted_eq h hm,
    fun h hm1 hm2 hu => abort_task_umount_ok_eq h ⟨hm1, hm2⟩ hu,
    fun h hm1 hm2 hu hl => abort_task_umount_lazy_eq h ⟨hm1, hm2⟩ hu hl,
    fun h hm1 hm2 hu hl => abort_task_umount_fail_eq h ⟨hm1, hm2⟩ hu hl⟩

/-- Closed witness for the amended C5: aborting a missing task on a concrete
state raises `ValueError`. -/
theorem abort_task_spec_witness :
    abort_task ⟨["base"], ["tasks"]⟩ ⟨true, true, true, "", true, true, 0, ""⟩
        ⟨[["tasks"]], []⟩ "ghost" =
      ⟨Except.error (PyError.valueError ("Task " ++ "ghost" ++ " not found.")),
        ⟨[["tasks"]], []⟩, []⟩ :=
  (abort_task_spec ⟨["base"], ["tasks"]⟩ ⟨true, true, true, "", true, true, 0, ""⟩
    ⟨[["tasks"]], []⟩ "ghost" (get_task_paths ⟨["base"], ["tasks"]⟩ "ghost") rfl).1 (by decide)

/-- Claim C1: after any sequence of writes through one task's merged view, the
base contents and every other task's merged view are unchanged (copy-on-write
isolation, modelled from the spec's description of the external overlay
filesystem). -/
theorem task_write_isolation (s : OverlaySystem) (t : String) (ws : List (String × String)) :
    (applyWrites s t ws).base = s.base ∧
    ∀ t', t' ≠ t → ∀ p, mergedRead (applyWrites s t ws) t' p = mergedRead s t' p := by
  induction ws generalizing s with
  | nil => exact ⟨rfl, fun _ _ _ => rfl⟩
  | cons w ws ih =>
    have step_base : (overlayWrite s t w.1 w.2).base = s.base := rfl
    have step_upper : ∀ t', t' ≠ t → upperOf (overlayWrite s t w.1 w.2) t' = upperOf s t' := by
      intro t' ht'
      have hbeq : (t' == t) = false := beq_eq_false_iff_ne.mpr ht'
      simp [overlayWrite, upperOf, List.lookup, hbeq]
    have hfold : applyWrites s t (w :: ws) = applyWrites (overlayWrite s t w.1 w.2) t ws := rfl
    obtain ⟨ihb, ihm⟩ := ih (overlayWrite s t w.1 w.2)
    refine ⟨?_, ?_⟩
    · rw [hfold, ihb, step_base]
    · intro t' ht' p
      rw [hfold, ihm t' ht' p]
      unfold mergedRead
      rw [step_upper t' ht', step_base]

/-- Closed witness for C1: a concrete write by task `a` leaves task `b`'s
merged view of the written path unchanged. -/
theorem task_write_isolation_witness :
    mergedRead (applyWrites ⟨[("f", "base text")], []⟩ "a" [("f", "patched")]) "b" "f" =
      mergedRead ⟨[("f", "base text")], []⟩ "b" "f" :=
  (task_write_isolation ⟨[("f", "base text")], []⟩ "a" [("f", "patched")]).2 "b" (by decide) "f"

/-- Claim C7 counterexample: on a concrete state, after a successful
`start_task`, an `abort_task` whose unmount subprocess (and lazy retry) fails
raises instead of cleaning up, and the task name is still listed — so the
claim's unconditional "after the subsequent abort_task the name is absent"
fails. -/
theorem round_trip_unmount_cex :
    "t" ∉ list_tasks ⟨["base"], ["tasks"]⟩ ⟨[["tasks"]], []⟩ ∧
    (start_task ⟨["base"], ["tasks"]⟩ ⟨true, true, true, "", false, false, 0, ""⟩
        ⟨[["tasks"]], []⟩ "t").res =
      Except.ok (get_task_paths ⟨["base"], ["tasks"]⟩ "t").merged ∧
    "t" ∈ list_tasks ⟨["base"], ["tasks"]⟩
      (abort_task ⟨["base"], ["tasks"]⟩ ⟨true, true, true, "", false, false, 0, ""⟩
        (start_task ⟨["base"], ["tasks"]⟩ ⟨true, true, true, "", false, false, 0, ""⟩
          ⟨[["tasks"]], []⟩ "t").fs "t").fs :=
  ⟨by decide, rfl, by decide⟩

theorem addMount_dirs (fs : FS) (p : FsPath) : (fs.addMount p).dirs = fs.dirs := rfl

theorem addMount_mounts (fs : FS) (p : FsPath) : (fs.addMount p).mounts = p :: fs.mounts := rfl

theorem removeMount_dirs (fs : FS) (p : FsPath) : (fs.removeMount p).dirs = fs.dirs := rfl

theorem mem_started_dirs {fs : FS} {cfg : Config} {task_name : String} {q : FsPath} :
    q ∈ (((fs.makedirs (get_task_paths cfg task_name).upper).makedirs
        (get_task_paths cfg task_name).work).makedirs
        (get_task_paths cfg task_name).merged).dirs ↔
      q ∈ fs.dirs ∨ q ∈ ancestors (get_task_paths cfg task_name).upper ∨
      q ∈ ancestors (get_task_paths cfg task_name).work ∨
      q ∈ ancestors (get_task_paths cfg task_name).merged := by
  simp [mem_makedirs, or_assoc]

theorem child_mem_started_dirs {fs : FS} {cfg : Config} {task_name m : String}
    (hne : m ≠ task_name) :
    cfg.tasks_root ++ [m] ∈ (((fs.makedirs (get_task_paths cfg task_name).upper).makedirs
        (get_task_paths cfg task_name).work).makedirs
        (get_task_paths cfg task_name).merged).dirs ↔
      cfg.tasks_root ++ [m] ∈ fs.dirs := by
  rw [mem_started_dirs]
  constructor
  · rintro (h | h | h | h)
    · exact h
    · exact absurd (child_mem_sub_ancestors_eq (by simpa [get_task_paths] using h)) hne
    · exact absurd (child_mem_sub_ancestors_eq (by simpa [get_task_paths] using h)) hne
    · exact absurd (child_mem_sub_ancestors_eq (by simpa [get_task_paths] using h)) hne
  · exact fun h => Or.inl h

/-- Claim C7 (amended): for a task name not currently listed, when the manager's
tasks root exists, after a successful `start_task` the name appears in
`list_tasks`, and after a subsequent `abort_task` whose unmount subprocess
succeeds, the name is absent from `list_tasks` and the set of listed tasks
equals the set before `start_task`. -/
theorem start_abort_round_trip (cfg : Config) (env : Env) (fs : FS) (task_name : String)
    (htr : cfg.tasks_root ∈ fs.dirs)
    (h1 : env.fuse_overlayfs_found = true) (h2 : env.dev_fuse_present = true)
    (h3 : env.mount_ok = true) (hu : env.umount_ok = true)
    (hname : task_name ∉ list_tasks cfg fs) :
    task_name ∈ list_tasks cfg (start_task cfg env fs task_name).fs ∧
    (abort_task cfg env (start_task cfg env fs task_name).fs task_name).res = Except.ok true ∧
    task_name ∉ list_tasks cfg
      (abort_task cfg env (start_task cfg env fs task_name).fs task_name).fs ∧
    ∀ m : String,
      (m ∈ list_tasks cfg (abort_task cfg env (start_task cfg env fs task_name).fs task_name).fs ↔
        m ∈ list_tasks cfg fs) := by
  have hroot : (get_task_paths cfg task_name).root ∉ fs.dirs := by
    intro hmem
    refine hname (mem_list_tasks.mpr ⟨htr, ?_⟩)
    simpa [get_task_paths] using hmem
  have hstart_fs : (start_task cfg env fs task_name).fs =
      (((fs.makedirs (get_task_paths cfg task_name).upper).makedirs
        (get_task_paths cfg task_name).work).makedirs
        (get_task_paths cfg task_name).merged).addMount (get_task_paths cfg task_name).merged := by
    rw [start_task_ok_eq h1 h2 h3 hroot]
  have hroot1 : (get_task_paths cfg task_name).root ∈ (start_task cfg env fs task_name).fs.dirs := by
    rw [hstart_fs, addMount_dirs, mem_started_dirs]
    refine Or.inr (Or.inl ?_)
    simp only [get_task_paths]
    exact root_mem_sub_ancestors (by simp)
  have htr1 : cfg.tasks_root ∈ (start_task cfg env fs task_name).fs.dirs := by
    rw [hstart_fs, addMount_dirs, mem_started_dirs]
    exact Or.inl htr
  have hmerged_mem :
      (get_task_paths cfg task_name).merged ∈ (start_task cfg env fs task_name).fs.dirs := by
    rw [hstart_fs, addMount_dirs, mem_started_dirs]
    refine Or.inr (Or.inr (Or.inr ?_))
    simp only [get_task_paths]
    exact sub_mem_sub_ancestors
  have hmerged_mnt :
      (get_task_paths cfg task_name).merged ∈ (start_task cfg env fs task_name).fs.mounts := by
    rw [hstart_fs, addMount_mounts]
    exact List.mem_cons_self _ _
  have habort := @abort_task_umount_ok_eq cfg env (start_task cfg env fs task_name).fs task_name
    hroot1 ⟨hmerged_mem, hmerged_mnt⟩ hu
  have habort_fs : (abort_task cfg env (start_task cfg env fs task_name).fs task_name).fs =
      (((start_task cfg env fs task_name).fs.removeMount
        (get_task_paths cfg task_name).merged).rmtree (get_task_paths cfg task_name).root) := by
    rw [habort]
  have habort_res : (abort_task cfg env (start_task cfg env fs task_name).fs task_name).res =
      Except.ok true := by
    rw [habort]
  have hfinal : ∀ q : FsPath,
      q ∈ (abort_task cfg env (start_task cfg env fs task_name).fs task_name).fs.dirs ↔
      (q ∈ (start_task cfg env fs task_name).fs.dirs ∧
        ¬(get_task_paths cfg task_name).root <+: q) := by
    intro q
    rw [habort_fs, mem_rmtree, removeMount_dirs]
  have hroot_self : (get_task_paths cfg task_name).root <+: cfg.tasks_root ++ [task_name] := by
    simp [get_task_paths, List.prefix_refl]
  refine ⟨?_, habort_res, ?_, ?_⟩
  · exact mem_list_tasks.mpr ⟨htr1, by simpa [get_task_paths] using hroot1⟩
  · intro hmem
    obtain ⟨-, hmem2⟩ := mem_list_tasks.mp hmem
    rw [hfinal] at hmem2
    exact hmem2.2 hroot_self
  · intro m
    by_cases hm : m = task_name
    · subst hm
      constructor
      · intro hmem
        obtain ⟨-, hmem2⟩ := mem_list_tasks.mp hmem
        rw [hfinal] at hmem2
        exact absurd hroot_self hmem2.2
      · intro hmem
        exact absurd hmem hname
    · rw [mem_list_tasks, mem_list_tasks]
      constructor
      · rintro ⟨-, hmem2⟩
        rw [hfinal] at hmem2
        obtain ⟨hin1, -⟩ := hmem2
        rw [hstart_fs, addMount_dirs, child_mem_started_dirs hm] at hin1
        exact ⟨htr, hin1⟩
      · rintro ⟨-, hmem2⟩
        refine ⟨?_, ?_⟩
        · rw [hfinal]
          refine ⟨htr1, ?_⟩
          simp only [get_task_paths]
          exact root_not_prefix_tasks_root
        · rw [hfinal]
          refine ⟨?_, ?_⟩
          · rw [hstart_fs, addMount_dirs, child_mem_started_dirs hm]
            exact hmem2
          · simp only [get_task_paths]
            exact root_not_prefix_sibling hm

/-- Closed witness for the amended C7: a concrete start/abort pair adds and
then removes the task name from the listing. -/
theorem start_abort_round_trip_witness :
    "t" ∈ list_tasks ⟨["base"], ["tasks"]⟩
      (start_task ⟨["base"], ["tasks"]⟩ ⟨true, true, true, "", true, true, 0, ""⟩
        ⟨[["tasks"]], []⟩ "t").fs ∧
    "t" ∉ list_tasks ⟨["base"], ["tasks"]⟩
      (abort_task ⟨["base"], ["tasks"]⟩ ⟨true, true, true, "", true, true, 0, ""⟩
        (start_task ⟨["base"], ["tasks"]⟩ ⟨true, true, true, "", true, true, 0, ""⟩
          ⟨[["tasks"]], []⟩ "t").fs "t").fs :=
  ⟨(start_abort_round_trip ⟨["base"], ["tasks"]⟩ ⟨true, true, true, "", true, true, 0, ""⟩
      ⟨[["tasks"]], []⟩ "t" (by decide) rfl rfl rfl rfl (by decide)).1,
    (start_abort_round_trip ⟨["base"], ["tasks"]⟩ ⟨true, true, true, "", true, true, 0, ""⟩
      ⟨[["tasks"]], []⟩ "t" (by decide) rfl rfl rfl rfl (by decide)).2.2.1⟩
